import Mathlib

/-!
Shallow embedding of `pkg/operator/operator.go` of the machine-api-operator
repository: the error/retry policy (`handleErr`), the worker loop
(`processNextWorkItem`), the sync pipeline (`sync`), the configuration
resolution (`getOperatorConfig`, `mcFromClusterConfig`,
`updateImageDetails`), the bootstrap convergence loop inside `Run`, the
startup sequence of `Run`, the informer event handler and the work queue
rate limiter. External collaborators (kube clients, parsers, the render
package, the convergence stages implemented outside this slice) enter as
function-valued fields of the `Operator` structure; a Go `error` is
modelled as its message string, `nil` as `none`. A call of `glog.Fatalf`
logs and exits the process, so the code after it never runs; such calls
are modelled as a distinct `fatal`/`terminated` outcome.
-/

namespace MachineAPIOperator

/-- A Go error value, modelled as its message string (`nil` is `Option.none`). -/
abbrev Err := String

/-- `maxRetries` (operator.go line 45): the number of times a key is retried
before it is dropped out of the queue. -/
def maxRetries : Nat := 15

/-- The observable operations the worker and the error policy issue against
the work queue and the process-wide error aggregator (`utilruntime.HandleError`). -/
inductive QueueOp where
  | forget (key : String)
  | addRateLimited (key : String)
  | reportError (err : Err)
  | done (key : String)
deriving DecidableEq

/-- `Operator.handleErr` (operator.go lines 219-238): given the key's current
requeue count and the sync error, the queue and aggregator operations it
performs, in order. `err = none` resets the key; a failing key below
`maxRetries` requeues rate-limited; at or above `maxRetries` the error is
reported once and the key is forgotten. -/
def handleErr (numRequeues : Nat) (err : Option Err) (key : String) : List QueueOp :=
  match err with
  | none => [QueueOp.forget key]
  | some e =>
    if numRequeues < maxRetries then
      [QueueOp.addRateLimited key]
    else
      [QueueOp.reportError e, QueueOp.forget key]

/-- `Operator.processNextWorkItem` (operator.go lines 206-217). `get` is what
`queue.Get()` returned (`none` when the queue reports it is shutting down),
`numRequeues` the per-key requeue counter the queue maintains, and
`syncHandler` the installed sync handler viewed through its returned error.
The result is the boolean the function returns and the queue operations
performed; the deferred `queue.Done` runs last, after `handleErr`. -/
def processNextWorkItem (get : Option String) (numRequeues : String → Nat)
    (syncHandler : String → Option Err) : Bool × List QueueOp :=
  match get with
  | none => (false, [])
  | some key =>
      (true, handleErr (numRequeues key) (syncHandler key) key ++ [QueueOp.done key])

/-- A change notification delivered by an informer, with payload type `α`
(operator.go lines 194-198 register one callback per shape). -/
inductive WatchEvent (α : Type) where
  | add (obj : α)
  | update (old new : α)
  | delete (obj : α)

/-- The singleton reconciliation key `namespace/name` (operator.go line 193). -/
def workQueueKey (nsp nm : String) : String := nsp ++ "/" ++ nm

/-- `Operator.eventHandler` (operator.go lines 192-199): the keys enqueued
(`queue.Add`) in response to one notification on any watched collection. -/
def eventHandler (nsp nm : String) {α : Type} (e : WatchEvent α) : List String :=
  match e with
  | WatchEvent.add _ => [workQueueKey nsp nm]
  | WatchEvent.update _ _ => [workQueueKey nsp nm]
  | WatchEvent.delete _ => [workQueueKey nsp nm]

/-- Modelled from the spec: `render.Images`, the component-name to
image-reference mapping loaded from the image manifest file (the `render`
package is outside this repository slice). -/
structure Images where
  entries : List (String × String)
deriving DecidableEq

/-- Modelled from the spec: `render.OperatorConfig` - a target namespace, a
provider identifier and an optional image mapping (the `render` package is
outside this repository slice). -/
structure OperatorConfig where
  targetNamespace : String
  provider : String
  images : Option Images
deriving DecidableEq

/-- The `Data` field of a `v1.ConfigMap`, as an association list. -/
structure ConfigMap where
  data : List (String × String)
deriving DecidableEq

/-- The `Operator` state (operator.go lines 52-78) together with its external
collaborators: the config-map store behind `kubeClient` (indexed by namespace
then name), the YAML parser for the embedded operator config, the file
reader and JSON parser behind `updateImageDetails`, and the convergence
stages whose implementations live outside this slice. For a stage, `none`
means the call succeeded and `some e` that it failed with error `e`. The
field `ns` is the namespace of the operator instance. -/
structure Operator where
  ns : String
  name : String
  imagesFile : String
  getConfigMap : String → String → Except Err ConfigMap
  parseOperatorConfig : String → Except Err OperatorConfig
  readFile : String → Except Err String
  parseImages : String → Except Err Images
  syncCustomResourceDefinitions : Option Err
  syncClusterAPIServer : OperatorConfig → Option Err
  syncClusterAPIController : OperatorConfig → Option Err
  syncAll : OperatorConfig → Option Err
  syncCluster : OperatorConfig → Option Err
  syncMachineSets : OperatorConfig → Option Err

/-- `Operator.mcFromClusterConfig` (operator.go lines 309-324): extract the
`mao-config` field of the config map, parse it, and default an empty target
namespace to the operator namespace. -/
def mcFromClusterConfig (optr : Operator) (cm : ConfigMap) : Except Err OperatorConfig :=
  match cm.data.lookup "mao-config" with
  | none => Except.error "mao-config doesn't exist"
  | some mcData =>
    match optr.parseOperatorConfig mcData with
    | Except.error e => Except.error ("failed unmarshalling config file: " ++ e)
    | Except.ok oc =>
      if oc.targetNamespace = "" then
        Except.ok { oc with targetNamespace := optr.ns }
      else
        Except.ok oc

/-- `Operator.getOperatorConfig` (operator.go lines 299-307): fetch the config
map named `cluster-config-v1` from the namespace `kube-system` and resolve
the operator config from it. -/
def getOperatorConfig (optr : Operator) : Except Err OperatorConfig :=
  match optr.getConfigMap "kube-system" "cluster-config-v1" with
  | Except.error e => Except.error ("could not find cluster-config-v1 namespace: " ++ e)
  | Except.ok cm => mcFromClusterConfig optr cm

/-- `Operator.updateImageDetails` (operator.go lines 240-258): read the images
file, parse it as JSON and store the result in the config's `Images` field. -/
def updateImageDetails (optr : Operator) (config : OperatorConfig) : Except Err OperatorConfig :=
  match optr.readFile optr.imagesFile with
  | Except.error e => Except.error e
  | Except.ok fileData =>
    match optr.parseImages fileData with
    | Except.error e => Except.error e
    | Except.ok imgs => Except.ok { config with images := some imgs }

/-- The six stages of the sync pipeline, in source order (operator.go lines
260-297). -/
inductive Stage where
  | crds
  | config
  | images
  | apiServer
  | apiController
  | all
deriving DecidableEq

/-- The stage order of `Operator.sync`. -/
def syncStageOrder : List Stage :=
  [Stage.crds, Stage.config, Stage.images, Stage.apiServer, Stage.apiController, Stage.all]

/-- How a call of `Operator.sync` ends: a normal return (`ok` or `err e`), or
process termination by `glog.Fatalf` with the logged message (`Fatalf` logs
and exits, so the `return err` written after it is dead code). -/
inductive SyncOutcome where
  | ok
  | err (e : Err)
  | fatal (msg : String)
deriving DecidableEq

/-- `Operator.sync` (operator.go lines 260-297): the outcome together with the
list of stages that started executing, in order. Failures of the first and
the last stage are returned; failures of configuration resolution, image
enrichment, API-server convergence and API-controller convergence hit a
`glog.Fatalf` call before the `return`. The `key` argument is used only in
log lines. -/
def sync (optr : Operator) (key : String) : SyncOutcome × List Stage :=
  match optr.syncCustomResourceDefinitions with
  | some e => (SyncOutcome.err e, [Stage.crds])
  | none =>
    match getOperatorConfig optr with
    | Except.error e =>
        (SyncOutcome.fatal ("Error decoding operator config: " ++ e),
         [Stage.crds, Stage.config])
    | Except.ok cfg0 =>
      match updateImageDetails optr cfg0 with
      | Except.error e =>
          (SyncOutcome.fatal ("Error getting image details: " ++ e),
           [Stage.crds, Stage.config, Stage.images])
      | Except.ok cfg =>
        match optr.syncClusterAPIServer cfg with
        | some e =>
            (SyncOutcome.fatal ("Failed sync-up cluster apiserver: " ++ e),
             [Stage.crds, Stage.config, Stage.images, Stage.apiServer])
        | none =>
          match optr.syncClusterAPIController cfg with
          | some e =>
              (SyncOutcome.fatal ("Failed sync-up cluster api controller: " ++ e),
               [Stage.crds, Stage.config, Stage.images, Stage.apiServer, Stage.apiController])
          | none =>
            match optr.syncAll cfg with
            | some e => (SyncOutcome.err e, syncStageOrder)
            | none => (SyncOutcome.ok, syncStageOrder)

/-- Outcome of running code that may call `glog.Fatalf`: either the value a
normal return produces, or process termination with the fatal message. -/
inductive ProcOutcome (α : Type) where
  | ok (a : α)
  | terminated (msg : String)
deriving DecidableEq

/-- One pass of `processNextWorkItem` with `Operator.sync` installed as the
sync handler (operator.go line 127), accounting for the `glog.Fatalf` calls
inside `sync`: when `sync` terminates the process, the worker never regains
control, so neither `handleErr` nor the deferred `queue.Done` runs. -/
def workerStep (optr : Operator) (numRequeues : String → Nat) (get : Option String) :
    ProcOutcome (Bool × List QueueOp) :=
  match get with
  | none => ProcOutcome.ok (false, [])
  | some key =>
    match (sync optr key).1 with
    | SyncOutcome.fatal msg => ProcOutcome.terminated msg
    | SyncOutcome.ok =>
        ProcOutcome.ok (true, handleErr (numRequeues key) none key ++ [QueueOp.done key])
    | SyncOutcome.err e =>
        ProcOutcome.ok (true, handleErr (numRequeues key) (some e) key ++ [QueueOp.done key])

/-- A creation call attempted by the bootstrap poll condition. -/
inductive Attempt where
  | cluster
  | machineSet
deriving DecidableEq

/-- What one run of the poll condition reports back to `wait.Poll`: `done`
stands for `(true, nil)`, `again` for `(false, nil)` and `hardErr e` for
`(false, e)`. -/
inductive PollStep where
  | done
  | again
  | hardErr (e : Err)
deriving DecidableEq

/-- One execution of the poll condition function inside `Operator.Run`
(operator.go lines 154-179): the report to `wait.Poll` together with the
creation calls attempted, in order. A configuration-resolution or
image-detail failure aborts with a wrapped hard error before any creation
is attempted; a creation failure is logged and reported as keep-polling
with no error. -/
def bootstrapPollOnce (optr : Operator) : PollStep × List Attempt :=
  match getOperatorConfig optr with
  | Except.error e => (PollStep.hardErr ("error decoding operator config: " ++ e), [])
  | Except.ok cfg0 =>
    match updateImageDetails optr cfg0 with
    | Except.error e => (PollStep.hardErr ("error getting image details: " ++ e), [])
    | Except.ok cfg =>
      match optr.syncCluster cfg with
      | some _ => (PollStep.again, [Attempt.cluster])
      | none =>
        match optr.syncMachineSets cfg with
        | some _ => (PollStep.again, [Attempt.cluster, Attempt.machineSet])
        | none => (PollStep.done, [Attempt.cluster, Attempt.machineSet])

/-- How the bootstrap goroutine of `Run` ends: the poll condition succeeds at
some tick, or `glog.Fatalf` halts the process (on a hard poll error or on
the timeout of `wait.Poll`). -/
inductive LoopOutcome where
  | success (tick : Nat)
  | fatal (msg : String)
deriving DecidableEq

/-- The message of `wait.ErrWaitTimeout`. -/
def timedOutMsg : String := "timed out waiting for the condition"

/-- The prefix `glog.Fatalf` gives every error of the bootstrap `wait.Poll`
(operator.go line 181). -/
def deployFatalMsg (e : Err) : String := "Error out while trying to deploy machines: " ++ e

/-- The bootstrap goroutine of `Operator.Run` (operator.go lines 153-183):
`wait.Poll` runs the condition once per tick until it reports done or an
error, or until the timeout allows no further tick (`fuel` ticks remain);
any error coming out of `wait.Poll` is passed to `glog.Fatalf`. `world t`
is the behaviour of the external collaborators at tick `t`; ticks count
from `tick` upward. The second component collects every creation attempt,
tagged with its tick. -/
def bootstrapLoopAux (world : Nat → Operator) (tick : Nat) :
    Nat → LoopOutcome × List (Nat × Attempt)
  | 0 => (LoopOutcome.fatal (deployFatalMsg timedOutMsg), [])
  | fuel + 1 =>
    let r := bootstrapPollOnce (world tick)
    let tagged := r.2.map (fun a => (tick, a))
    match r.1 with
    | PollStep.done => (LoopOutcome.success tick, tagged)
    | PollStep.hardErr e => (LoopOutcome.fatal (deployFatalMsg e), tagged)
    | PollStep.again =>
      let rest := bootstrapLoopAux world (tick + 1) fuel
      (rest.1, tagged ++ rest.2)

/-- The whole bootstrap loop run, ticks counted from 1, at most `maxTicks`
ticks before the timeout. -/
def bootstrapLoop (world : Nat → Operator) (maxTicks : Nat) :
    LoopOutcome × List (Nat × Attempt) :=
  bootstrapLoopAux world 1 maxTicks

/-- The informer caches whose `HasSynced` functions the operator records
(operator.go lines 71-74). -/
inductive CacheName where
  | crdListerSynced
  | machineSetSynced
  | deployListerSynced
  | daemonsetListerSynced
deriving DecidableEq

/-- All the cache-sync flags the `Operator` structure tracks. -/
def operatorTrackedCaches : List CacheName :=
  [CacheName.crdListerSynced, CacheName.machineSetSynced,
   CacheName.deployListerSynced, CacheName.daemonsetListerSynced]

/-- The caches `Run` actually passes to `cache.WaitForCacheSync`
(operator.go lines 147-148): only the deployment informer's. -/
def runWaitedCaches : List CacheName := [CacheName.deployListerSynced]

/-- The startup actions of `Operator.Run` (operator.go lines 140-190), in
program order. -/
inductive RunStep where
  | waitForCaches (caches : List CacheName)
  | startBootstrapLoop
  | startWorker
  | shutDownQueue
deriving DecidableEq

/-- The startup sequence of `Operator.Run` (operator.go lines 140-190): it
first blocks in `cache.WaitForCacheSync` on `runWaitedCaches`; if that wait
fails (the stop signal fired first) it returns at once, running only the
deferred `queue.ShutDown`; otherwise it starts the bootstrap goroutine,
then `workers` worker goroutines, blocks on the stop channel and finally
runs the deferred `queue.ShutDown`. -/
def runStartup (cacheSyncOk : Bool) (workers : Nat) : List RunStep :=
  if cacheSyncOk then
    RunStep.waitForCaches runWaitedCaches :: RunStep.startBootstrapLoop ::
      (List.replicate workers RunStep.startWorker ++ [RunStep.shutDownQueue])
  else
    [RunStep.waitForCaches runWaitedCaches, RunStep.shutDownQueue]

/-- Modelled from the spec: the per-item exponential component of
`workqueue.DefaultControllerRateLimiter()` (operator.go line 115), whose
implementation lives in the external client-go library - base delay 5ms,
maximum delay 1000s, a per-item count of consecutive failures. The backoff
formula also appears in the source comment at operator.go lines 40-44. -/
structure ItemExponentialFailureRateLimiter where
  baseDelayMs : Nat
  maxDelayMs : Nat
  failures : String → Nat

/-- The limiter `New` installs (operator.go line 115): fresh counters, base
5ms, cap 1000s. -/
def defaultItemRateLimiter : ItemExponentialFailureRateLimiter :=
  { baseDelayMs := 5, maxDelayMs := 1000000, failures := fun _ => 0 }

/-- The `When(item)` call of the rate limiter: the delay assigned to a failed
item - base times 2 to the number of previous consecutive failures, capped
at the maximum - together with the limiter after the failure count is
incremented. -/
def ItemExponentialFailureRateLimiter.when (r : ItemExponentialFailureRateLimiter)
    (item : String) : Nat × ItemExponentialFailureRateLimiter :=
  let f := r.failures item
  (min (r.baseDelayMs * 2 ^ f) r.maxDelayMs,
   { r with failures := fun i => if i = item then f + 1 else r.failures i })

/-- The limiter after `k` consecutive failures of `item`, starting fresh. -/
def rlAfter (item : String) : Nat → ItemExponentialFailureRateLimiter
  | 0 => defaultItemRateLimiter
  | k + 1 => ((rlAfter item k).when item).2

/-- The backoff delay (in ms) computed when `item` fails for the `k`-th
consecutive time, counting from `k = 1`. -/
def kthFailureDelayMs (item : String) (k : Nat) : Nat :=
  ((rlAfter item (k - 1)).when item).1

/-! ### Concrete collaborators used for witnesses and counterexamples -/

/-- A sample image table. -/
def sampleImages : Images :=
  { entries := [("clusterAPIControllerAWS", "registry.example/cluster-api-controller")] }

/-- A sample resolved operator config. -/
def sampleConfig : OperatorConfig :=
  { targetNamespace := "openshift-cluster-api", provider := "aws", images := none }

/-- A YAML parser that recognises one fixed document. -/
def sampleParse (s : String) : Except Err OperatorConfig :=
  if s = "mao-yaml" then Except.ok sampleConfig else Except.error "yaml: invalid"

/-- An operator whose collaborators all succeed. -/
def baseOperator : Operator :=
  { ns := "openshift-cluster-api"
    name := "machine-api-operator"
    imagesFile := "images.json"
    getConfigMap := fun nsp nm =>
      if nsp = "kube-system" ∧ nm = "cluster-config-v1" then
        Except.ok { data := [("mao-config", "mao-yaml")] }
      else
        Except.error "configmaps not found"
    parseOperatorConfig := sampleParse
    readFile := fun f =>
      if f = "images.json" then Except.ok "images-json" else Except.error "no such file"
    parseImages := fun s =>
      if s = "images-json" then Except.ok sampleImages else Except.error "invalid json"
    syncCustomResourceDefinitions := none
    syncClusterAPIServer := fun _ => none
    syncClusterAPIController := fun _ => none
    syncAll := fun _ => none
    syncCluster := fun _ => none
    syncMachineSets := fun _ => none }

/-- `baseOperator` with a config map that lacks the `mao-config` field. -/
def missingFieldOperator : Operator :=
  { baseOperator with getConfigMap := fun _ _ => Except.ok { data := [] } }

/-- `baseOperator` with a failing CRD-registration stage. -/
def crdFailOperator : Operator :=
  { baseOperator with syncCustomResourceDefinitions := some "crd boom" }

/-- `baseOperator` with a failing final convergence stage. -/
def syncAllFailOperator : Operator :=
  { baseOperator with syncAll := fun _ => some "syncAll boom" }

/-- A bootstrap world in which every creation succeeds except the machine-set
creation at tick 1. Cluster creation succeeds from tick 1 on. -/
def machineSetFlakyWorld (t : Nat) : Operator :=
  if t = 1 then
    { baseOperator with syncMachineSets := fun _ => some "machineset boom" }
  else
    baseOperator

/-! ### Claim theorems -/

/-- C3: `handleErr` is a three-way classification. With `err = nil` it only
forgets the key; with a non-nil error and fewer than 15 requeues it only
requeues rate-limited (no report, no forget); with a non-nil error and at
least 15 requeues it reports the error exactly once and forgets the key,
with no further rate-limited requeue. -/
theorem c3_handleErr_classification (n : Nat) (key : String) (e : Err) :
    (handleErr n none key = [QueueOp.forget key]) ∧
    (n < maxRetries →
      handleErr n (some e) key = [QueueOp.addRateLimited key] ∧
      (handleErr n (some e) key).count (QueueOp.reportError e) = 0 ∧
      (handleErr n (some e) key).count (QueueOp.forget key) = 0) ∧
    (maxRetries ≤ n →
      (handleErr n (some e) key).count (QueueOp.reportError e) = 1 ∧
      (handleErr n (some e) key).count (QueueOp.forget key) = 1 ∧
      (handleErr n (some e) key).count (QueueOp.addRateLimited key) = 0) := by
  refine ⟨rfl, fun h => ?_, fun h => ?_⟩
  · simp [handleErr, h, List.count_cons]
  · have h2 : ¬ n < maxRetries := by omega
    simp [handleErr, h2, List.count_cons]

/-- C3 witness: the classification at requeue counts 0 and 15 for a concrete
key and error. -/
theorem c3_handleErr_classification_witness :
    handleErr 0 (some "stage failed") "openshift-cluster-api/machine-api-operator"
      = [QueueOp.addRateLimited "openshift-cluster-api/machine-api-operator"] ∧
    (handleErr 15 (some "stage failed") "openshift-cluster-api/machine-api-operator").count
      (QueueOp.reportError "stage failed") = 1 :=
  ⟨((c3_handleErr_classification 0 "openshift-cluster-api/machine-api-operator"
      "stage failed").2.1 (by decide)).1,
   ((c3_handleErr_classification 15 "openshift-cluster-api/machine-api-operator"
      "stage failed").2.2 (by decide)).1⟩

/-- C9: every notification on a watched collection - add, update or delete,
whatever the payload - enqueues exactly the one singleton key
`namespace/name`, independently of the payload. -/
theorem c9_eventHandler_singleton {α : Type} (nsp nm : String) (e e2 : WatchEvent α) :
    eventHandler nsp nm e = [workQueueKey nsp nm] ∧
    eventHandler nsp nm e = eventHandler nsp nm e2 := by
  cases e <;> cases e2 <;> exact ⟨rfl, rfl⟩

/-- C10: `processNextWorkItem` returns false exactly when `Get` reports the
queue shutting down; on every dequeued item it hands the sync handler's
result to `handleErr` and then calls `Done` on the item, exactly once, as
the last queue operation. -/
theorem c10_processNextWorkItem_shape (get : Option String) (numRequeues : String → Nat)
    (syncHandler : String → Option Err) :
    ((processNextWorkItem get numRequeues syncHandler).1 = get.isSome) ∧
    (∀ key, get = some key →
      (processNextWorkItem get numRequeues syncHandler).2
        = handleErr (numRequeues key) (syncHandler key) key ++ [QueueOp.done key] ∧
      ((processNextWorkItem get numRequeues syncHandler).2.count (QueueOp.done key) = 1)) := by
  refine ⟨?_, fun key hk => ?_⟩
  · cases get <;> rfl
  · subst hk
    refine ⟨rfl, ?_⟩
    have hzero : ∀ (n : Nat) (e : Option Err),
        (handleErr n e key).count (QueueOp.done key) = 0 := by
      intro n e
      cases e with
      | none => simp [handleErr]
      | some e0 =>
        by_cases h : n < maxRetries <;> simp [handleErr, h, List.count_cons]
    simp [processNextWorkItem, List.count_append, hzero]

/-- C10 witness: a concrete dequeued item with a failing sync handler is
acknowledged with exactly one `Done`, after `handleErr`. -/
theorem c10_processNextWorkItem_shape_witness :
    (processNextWorkItem (some "a/b") (fun _ => 0) (fun _ => some "boom")).2
      = handleErr 0 (some "boom") "a/b" ++ [QueueOp.done "a/b"] ∧
    (processNextWorkItem (some "a/b") (fun _ => 0) (fun _ => some "boom")).2.count
      (QueueOp.done "a/b") = 1 :=
  (c10_processNextWorkItem_shape (some "a/b") (fun _ => 0) (fun _ => some "boom")).2
    "a/b" rfl

/-- C6: configuration resolution reads the config object from the fixed
namespace `kube-system` under the fixed name `cluster-config-v1` - two
operators that agree on the parser and namespace and whose stores agree at
that one key resolve identically; a config object without the `mao-config`
field makes resolution fail with the error `mao-config doesn't exist` and
no config is produced; a successfully parsed config with empty
`TargetNamespace` gets the operator's own namespace filled in. -/
theorem c6_config_resolution (optr : Operator) (cm : ConfigMap) :
    (∀ optr2 : Operator, optr2.ns = optr.ns →
      optr2.parseOperatorConfig = optr.parseOperatorConfig →
      optr2.getConfigMap "kube-system" "cluster-config-v1"
        = optr.getConfigMap "kube-system" "cluster-config-v1" →
      getOperatorConfig optr2 = getOperatorConfig optr) ∧
    (cm.data.lookup "mao-config" = none →
      mcFromClusterConfig optr cm = Except.error "mao-config doesn't exist") ∧
    (∀ s oc, cm.data.lookup "mao-config" = some s →
      optr.parseOperatorConfig s = Except.ok oc →
      oc.targetNamespace = "" →
      mcFromClusterConfig optr cm = Except.ok { oc with targetNamespace := optr.ns }) := by
  refine ⟨fun optr2 hns hp hg => ?_, fun h => ?_, fun s oc hs hp he => ?_⟩
  · unfold getOperatorConfig mcFromClusterConfig
    rw [hns, hp, hg]
  · simp [mcFromClusterConfig, h]
  · simp [mcFromClusterConfig, hs, hp, he]

/-- A parsed config whose target namespace is empty. -/
def emptyNsConfig : OperatorConfig :=
  { targetNamespace := "", provider := "aws", images := none }

/-- `baseOperator` with a parser that always yields `emptyNsConfig`. -/
def emptyNsParseOperator : Operator :=
  { baseOperator with parseOperatorConfig := fun _ => Except.ok emptyNsConfig }

/-- C6 witness: a config map without the `mao-config` field fails resolution
with the descriptive error, and a parsed config with empty target namespace
gets the operator namespace filled in. -/
theorem c6_config_resolution_witness :
    mcFromClusterConfig baseOperator { data := [] }
      = Except.error "mao-config doesn't exist" ∧
    mcFromClusterConfig emptyNsParseOperator { data := [("mao-config", "x")] }
      = Except.ok { emptyNsConfig with targetNamespace := emptyNsParseOperator.ns } :=
  ⟨(c6_config_resolution baseOperator { data := [] }).2.1 rfl,
   (c6_config_resolution emptyNsParseOperator { data := [("mao-config", "x")] }).2.2
      "x" emptyNsConfig rfl rfl rfl⟩

/-- C7 counterexample: the claim says `Run` blocks until all watched-resource
caches report synced, but the machine-set cache is a tracked watched-resource
cache and is absent from the list `Run` hands to `cache.WaitForCacheSync`,
which holds only the deployment cache. -/
theorem c7_cache_wait_counterexample :
    CacheName.machineSetSynced ∈ operatorTrackedCaches ∧
    runWaitedCaches.count CacheName.machineSetSynced = 0 ∧
    runWaitedCaches = [CacheName.deployListerSynced] := by
  decide

/-- C7 amended: `Run` blocks until the deployment informer cache (only)
reports initial sync complete before starting anything - the wait is the
first startup step in either case - and if that wait fails because the stop
signal fired first, `Run` returns without starting the bootstrap loop or
any worker, running only the deferred queue shutdown. -/
theorem c7_cache_wait_amended (workers : Nat) (ok : Bool) :
    ((runStartup ok workers).head? = some (RunStep.waitForCaches runWaitedCaches)) ∧
    ((runStartup false workers).count RunStep.startBootstrapLoop = 0) ∧
    ((runStartup false workers).count RunStep.startWorker = 0) ∧
    ((runStartup false workers) = [RunStep.waitForCaches runWaitedCaches,
                                   RunStep.shutDownQueue]) ∧
    ((runStartup true workers).count RunStep.startBootstrapLoop = 1) ∧
    ((runStartup true workers).count RunStep.startWorker = workers) := by
  refine ⟨?_, by simp [runStartup, List.count_cons], by simp [runStartup, List.count_cons],
    rfl, ?_, ?_⟩
  · cases ok <;> rfl
  · simp [runStartup, List.count_cons, List.count_append,
      List.count_replicate, List.count_singleton]
  · simp [runStartup, List.count_cons, List.count_append,
      List.count_replicate, List.count_singleton]

/-- C7 witness: the amended startup behaviour at three workers. -/
theorem c7_cache_wait_amended_witness :
    (runStartup false 3).count RunStep.startWorker = 0 ∧
    (runStartup true 3).count RunStep.startWorker = 3 :=
  ⟨(c7_cache_wait_amended 3 false).2.2.1, (c7_cache_wait_amended 3 true).2.2.2.2.2⟩

/-- The limiter after `k` consecutive failures still has base 5ms, cap 1000s,
and counts exactly `k` failures for the item. -/
lemma rlAfter_fields (item : String) :
    ∀ k : Nat, (rlAfter item k).baseDelayMs = 5 ∧ (rlAfter item k).maxDelayMs = 1000000 ∧
      (rlAfter item k).failures item = k := by
  intro k
  induction k with
  | zero => exact ⟨rfl, rfl, rfl⟩
  | succ k ih =>
    obtain ⟨h1, h2, h3⟩ := ih
    refine ⟨h1, h2, ?_⟩
    simp [rlAfter, ItemExponentialFailureRateLimiter.when, h3]

/-- C8: for every key failed `K` consecutive times with `1 ≤ K < 15`, the
backoff delay computed before the key is re-enqueued is `5ms * 2^(K-1)`,
and the delay grows strictly with `K` in that range. -/
theorem c8_backoff_delay (item : String) (K : Nat) (h1 : 1 ≤ K) (h2 : K < maxRetries) :
    kthFailureDelayMs item K = 5 * 2 ^ (K - 1) ∧
    (∀ K2, K < K2 → K2 < maxRetries → kthFailureDelayMs item K < kthFailureDelayMs item K2) := by
  have formula : ∀ j : Nat, j ≤ 13 → kthFailureDelayMs item (j + 1) = 5 * 2 ^ j := by
    intro j hj
    obtain ⟨hb, hm, hf⟩ := rlAfter_fields item j
    have hle : 5 * 2 ^ j ≤ 1000000 := by
      have hp : (2 : Nat) ^ j ≤ 2 ^ 13 := Nat.pow_le_pow_right (by omega) hj
      have h13 : (2 : Nat) ^ 13 = 8192 := by norm_num
      omega
    simp [kthFailureDelayMs, ItemExponentialFailureRateLimiter.when, hb, hm, hf,
      Nat.min_eq_left hle]
  have hK : K = (K - 1) + 1 := by omega
  constructor
  · rw [hK]
    exact formula (K - 1) (by simp [maxRetries] at h2; omega)
  · intro K2 hlt hK2
    have hK2e : K2 = (K2 - 1) + 1 := by omega
    rw [hK, hK2e, formula (K - 1) (by simp [maxRetries] at h2; omega),
      formula (K2 - 1) (by simp [maxRetries] at hK2; omega)]
    have hp : (2 : Nat) ^ (K - 1) < 2 ^ (K2 - 1) :=
      Nat.pow_lt_pow_right (by omega) (by omega)
    omega

/-- C8 witness: the third consecutive failure of a concrete key is delayed
20ms, strictly less than the fourth failure's delay. -/
theorem c8_backoff_delay_witness :
    kthFailureDelayMs "openshift-cluster-api/machine-api-operator" 3 = 5 * 2 ^ 2 ∧
    kthFailureDelayMs "openshift-cluster-api/machine-api-operator" 3
      < kthFailureDelayMs "openshift-cluster-api/machine-api-operator" 4 :=
  ⟨(c8_backoff_delay "openshift-cluster-api/machine-api-operator" 3
      (by decide) (by decide)).1,
   (c8_backoff_delay "openshift-cluster-api/machine-api-operator" 3
      (by decide) (by decide)).2 4 (by decide) (by decide)⟩

/-- C1 counterexample: a configuration-resolution failure (the `mao-config`
field is missing) is a pipeline-stage failure that is not handed to
`handleErr` - the `glog.Fatalf` call inside `sync` terminates the process
before control returns to the worker, refuting the claim that no pipeline
error ever terminates the process. -/
theorem c1_error_containment_counterexample :
    workerStep missingFieldOperator (fun _ => 0)
        (some "openshift-cluster-api/machine-api-operator")
      = ProcOutcome.terminated "Error decoding operator config: mao-config doesn't exist" ∧
    workerStep missingFieldOperator (fun _ => 0)
        (some "openshift-cluster-api/machine-api-operator")
      ≠ ProcOutcome.ok (true,
          handleErr 0 (some "mao-config doesn't exist")
              "openshift-cluster-api/machine-api-operator"
            ++ [QueueOp.done "openshift-cluster-api/machine-api-operator"]) := by
  decide

/-- C1 amended: an error that `sync` returns is always captured inside the
worker and handed to `handleErr` (which never terminates the process, only
emitting queue operations), and `sync` returns the errors of its first
stage (CRD registration) and of its last stage (`syncAll`); but a failure
of configuration resolution - and likewise of the other middle stages -
reaches a `glog.Fatalf` call inside `sync`, terminating the process before
the worker can hand the error to the error policy. -/
theorem c1_error_containment_amended (optr : Operator) (numRequeues : String → Nat)
    (key : String) :
    (∀ e, (sync optr key).1 = SyncOutcome.err e →
      workerStep optr numRequeues (some key)
        = ProcOutcome.ok (true, handleErr (numRequeues key) (some e) key
            ++ [QueueOp.done key])) ∧
    (∀ e, optr.syncCustomResourceDefinitions = some e →
      (sync optr key).1 = SyncOutcome.err e) ∧
    (∀ e cfg0 cfg, optr.syncCustomResourceDefinitions = none →
      getOperatorConfig optr = Except.ok cfg0 →
      updateImageDetails optr cfg0 = Except.ok cfg →
      optr.syncClusterAPIServer cfg = none →
      optr.syncClusterAPIController cfg = none →
      optr.syncAll cfg = some e →
      (sync optr key).1 = SyncOutcome.err e) ∧
    (∀ msg, (sync optr key).1 = SyncOutcome.fatal msg →
      workerStep optr numRequeues (some key) = ProcOutcome.terminated msg) ∧
    (∀ e, optr.syncCustomResourceDefinitions = none →
      getOperatorConfig optr = Except.error e →
      workerStep optr numRequeues (some key)
        = ProcOutcome.terminated ("Error decoding operator config: " ++ e)) := by
  refine ⟨fun e h => ?_, fun e h => ?_, fun e cfg0 cfg h1 h2 h3 h4 h5 h6 => ?_,
    fun msg h => ?_, fun e h1 h2 => ?_⟩
  · simp [workerStep, h]
  · simp [sync, h]
  · simp [sync, h1, h2, h3, h4, h5, h6]
  · simp [workerStep, h]
  · simp [workerStep, sync, h1, h2]

/-- C1 witness: a failing CRD-registration stage on an otherwise healthy
operator is handed to `handleErr` and the worker survives. -/
theorem c1_error_containment_amended_witness :
    workerStep crdFailOperator (fun _ => 0) (some "a/b")
      = ProcOutcome.ok (true, handleErr 0 (some "crd boom") "a/b" ++ [QueueOp.done "a/b"]) :=
  (c1_error_containment_amended crdFailOperator (fun _ => 0) "a/b").1 "crd boom"
    ((c1_error_containment_amended crdFailOperator (fun _ => 0) "a/b").2.1 "crd boom" rfl)

/-- C4 counterexample: when the configuration-resolution stage fails, `sync`
does not return the stage error - the process is terminated by
`glog.Fatalf` (with the error only embedded in the fatal log message), so
the claim that `Sync` returns the stage error unmodified fails for stage 2. -/
theorem c4_pipeline_counterexample :
    sync missingFieldOperator "a/b"
      = (SyncOutcome.fatal "Error decoding operator config: mao-config doesn't exist",
         [Stage.crds, Stage.config]) ∧
    (sync missingFieldOperator "a/b").1 ≠ SyncOutcome.err "mao-config doesn't exist" := by
  decide

/-- C4 amended: the six stages run strictly in pipeline order - the executed
stages always form a prefix of the stage order, so a failure of stage `i`
keeps stages `i+1` through 6 from executing and nothing is rolled back.
Failures of stage 1 (CRD registration) and stage 6 (`syncAll`) are returned
unmodified; failures of stages 2-5 are not returned: the process terminates
fatally with a message that embeds the stage error. -/
theorem c4_pipeline_amended (optr : Operator) (key : String) :
    (∃ k, (sync optr key).2 = syncStageOrder.take k) ∧
    (∀ e, optr.syncCustomResourceDefinitions = some e →
      sync optr key = (SyncOutcome.err e, syncStageOrder.take 1)) ∧
    (∀ e, optr.syncCustomResourceDefinitions = none →
      getOperatorConfig optr = Except.error e →
      sync optr key
        = (SyncOutcome.fatal ("Error decoding operator config: " ++ e),
           syncStageOrder.take 2)) ∧
    (∀ e cfg0, optr.syncCustomResourceDefinitions = none →
      getOperatorConfig optr = Except.ok cfg0 →
      updateImageDetails optr cfg0 = Except.error e →
      sync optr key
        = (SyncOutcome.fatal ("Error getting image details: " ++ e),
           syncStageOrder.take 3)) ∧
    (∀ e cfg0 cfg, optr.syncCustomResourceDefinitions = none →
      getOperatorConfig optr = Except.ok cfg0 →
      updateImageDetails optr cfg0 = Except.ok cfg →
      optr.syncClusterAPIServer cfg = some e →
      sync optr key
        = (SyncOutcome.fatal ("Failed sync-up cluster apiserver: " ++ e),
           syncStageOrder.take 4)) ∧
    (∀ e cfg0 cfg, optr.syncCustomResourceDefinitions = none →
      getOperatorConfig optr = Except.ok cfg0 →
      updateImageDetails optr cfg0 = Except.ok cfg →
      optr.syncClusterAPIServer cfg = none →
      optr.syncClusterAPIController cfg = some e →
      sync optr key
        = (SyncOutcome.fatal ("Failed sync-up cluster api controller: " ++ e),
           syncStageOrder.take 5)) ∧
    (∀ e cfg0 cfg, optr.syncCustomResourceDefinitions = none →
      getOperatorConfig optr = Except.ok cfg0 →
      updateImageDetails optr cfg0 = Except.ok cfg →
      optr.syncClusterAPIServer cfg = none →
      optr.syncClusterAPIController cfg = none →
      optr.syncAll cfg = some e →
      sync optr key = (SyncOutcome.err e, syncStageOrder)) := by
  refine ⟨?_, fun e h1 => by simp [sync, h1, syncStageOrder],
    fun e h1 h2 => by simp [sync, h1, h2, syncStageOrder],
    fun e cfg0 h1 h2 h3 => by simp [sync, h1, h2, h3, syncStageOrder],
    fun e cfg0 cfg h1 h2 h3 h4 => by simp [sync, h1, h2, h3, h4, syncStageOrder],
    fun e cfg0 cfg h1 h2 h3 h4 h5 => by simp [sync, h1, h2, h3, h4, h5, syncStageOrder],
    fun e cfg0 cfg h1 h2 h3 h4 h5 h6 => by simp [sync, h1, h2, h3, h4, h5, h6]⟩
  cases h1 : optr.syncCustomResourceDefinitions with
  | some e => exact ⟨1, by simp [sync, h1, syncStageOrder]⟩
  | none =>
    cases h2 : getOperatorConfig optr with
    | error e => exact ⟨2, by simp [sync, h1, h2, syncStageOrder]⟩
    | ok cfg0 =>
      cases h3 : updateImageDetails optr cfg0 with
      | error e => exact ⟨3, by simp [sync, h1, h2, h3, syncStageOrder]⟩
      | ok cfg =>
        cases h4 : optr.syncClusterAPIServer cfg with
        | some e => exact ⟨4, by simp [sync, h1, h2, h3, h4, syncStageOrder]⟩
        | none =>
          cases h5 : optr.syncClusterAPIController cfg with
          | some e => exact ⟨5, by simp [sync, h1, h2, h3, h4, h5, syncStageOrder]⟩
          | none =>
            cases h6 : optr.syncAll cfg with
            | some e => exact ⟨6, by simp [sync, h1, h2, h3, h4, h5, h6, syncStageOrder]⟩
            | none => exact ⟨6, by simp [sync, h1, h2, h3, h4, h5, h6, syncStageOrder]⟩

/-- C4 witness: a failing `syncAll` on an otherwise healthy operator makes
`sync` run all six stages and return the `syncAll` error unmodified. -/
theorem c4_pipeline_amended_witness :
    sync syncAllFailOperator "a/b" = (SyncOutcome.err "syncAll boom", syncStageOrder) :=
  (c4_pipeline_amended syncAllFailOperator "a/b").2.2.2.2.2.2 "syncAll boom" sampleConfig
    { sampleConfig with images := some sampleImages } rfl rfl rfl rfl rfl rfl

/-- When the poll condition reports done, it attempted the cluster creation
and then the machine-set creation in that very tick. -/
lemma bootstrapPollOnce_done_attempts (optr : Operator) :
    (bootstrapPollOnce optr).1 = PollStep.done →
    (bootstrapPollOnce optr).2 = [Attempt.cluster, Attempt.machineSet] := by
  intro hyp
  cases h1 : getOperatorConfig optr with
  | error e => simp [bootstrapPollOnce, h1] at hyp
  | ok cfg0 =>
    cases h2 : updateImageDetails optr cfg0 with
    | error e => simp [bootstrapPollOnce, h1, h2] at hyp
    | ok cfg =>
      cases h3 : optr.syncCluster cfg with
      | some e => simp [bootstrapPollOnce, h1, h2, h3] at hyp
      | none =>
        cases h4 : optr.syncMachineSets cfg with
        | some e => simp [bootstrapPollOnce, h1, h2, h3, h4] at hyp
        | none => simp [bootstrapPollOnce, h1, h2, h3, h4]

/-- Whenever a tick performs any creation attempt at all (it did not abort on
a hard config error), the cluster creation is attempted first in that tick,
regardless of what happened on earlier ticks. -/
lemma bootstrapPollOnce_cluster_first (optr : Operator) :
    (bootstrapPollOnce optr).1 = PollStep.again ∨ (bootstrapPollOnce optr).1 = PollStep.done →
    (bootstrapPollOnce optr).2.head? = some Attempt.cluster := by
  intro hyp
  cases h1 : getOperatorConfig optr with
  | error e => simp [bootstrapPollOnce, h1] at hyp
  | ok cfg0 =>
    cases h2 : updateImageDetails optr cfg0 with
    | error e => simp [bootstrapPollOnce, h1, h2] at hyp
    | ok cfg =>
      cases h3 : optr.syncCluster cfg with
      | some e => simp [bootstrapPollOnce, h1, h2, h3]
      | none =>
        cases h4 : optr.syncMachineSets cfg with
        | some e => simp [bootstrapPollOnce, h1, h2, h3, h4]
        | none => simp [bootstrapPollOnce, h1, h2, h3, h4]

/-- When the loop run starting at `tick` succeeds at tick `t`, the machine-set
creation succeeded at tick `t` itself and every attempt of the run happened
at a tick between `tick` and `t`: nothing is attempted after success. -/
lemma bootstrapLoopAux_success_shape (world : Nat → Operator) :
    ∀ (fuel tick t : Nat) (tr : List (Nat × Attempt)),
      bootstrapLoopAux world tick fuel = (LoopOutcome.success t, tr) →
      tick ≤ t ∧ (t, Attempt.machineSet) ∈ tr ∧ ∀ p ∈ tr, tick ≤ p.1 ∧ p.1 ≤ t := by
  intro fuel
  induction fuel with
  | zero =>
    intro tick t tr h
    simp [bootstrapLoopAux] at h
  | succ fuel ih =>
    intro tick t tr h
    rcases hr : bootstrapPollOnce (world tick) with ⟨step, attempts⟩
    cases step with
    | hardErr e =>
      simp [bootstrapLoopAux, hr] at h
    | done =>
      have hatt : attempts = [Attempt.cluster, Attempt.machineSet] := by
        have hd := bootstrapPollOnce_done_attempts (world tick) (by rw [hr])
        rw [hr] at hd
        exact hd
      have hv : bootstrapLoopAux world tick (fuel + 1)
          = (LoopOutcome.success tick, attempts.map (fun a => (tick, a))) := by
        simp [bootstrapLoopAux, hr]
      rw [hv] at h
      simp only [Prod.mk.injEq, LoopOutcome.success.injEq] at h
      obtain ⟨ht, htr⟩ := h
      subst ht
      subst htr
      subst hatt
      refine ⟨le_refl _, by simp, ?_⟩
      intro p hp
      simp at hp
      rcases hp with h | h <;> subst h <;> exact ⟨le_refl _, le_refl _⟩
    | again =>
      rcases hrec : bootstrapLoopAux world (tick + 1) fuel with ⟨o2, tr2⟩
      have hv : bootstrapLoopAux world tick (fuel + 1)
          = (o2, attempts.map (fun a => (tick, a)) ++ tr2) := by
        simp [bootstrapLoopAux, hr, hrec]
      rw [hv] at h
      simp only [Prod.mk.injEq] at h
      obtain ⟨ho, htr⟩ := h
      subst ho
      subst htr
      obtain ⟨h1, h2, h3⟩ := ih (tick + 1) t tr2 hrec
      refine ⟨by omega, List.mem_append_right _ h2, ?_⟩
      intro p hp
      rcases List.mem_append.mp hp with hl | hrr
      · obtain ⟨a, _, hpa⟩ := List.mem_map.mp hl
        have : p.1 = tick := by rw [← hpa]
        omega
      · have := h3 p hrr
        omega

/-- When every tick of the world keeps polling, the loop exhausts its fuel and
ends with the fatal timeout message. -/
lemma bootstrapLoopAux_timeout (world : Nat → Operator)
    (h : ∀ t, (bootstrapPollOnce (world t)).1 = PollStep.again) :
    ∀ fuel tick, (bootstrapLoopAux world tick fuel).1
      = LoopOutcome.fatal (deployFatalMsg timedOutMsg) := by
  intro fuel
  induction fuel with
  | zero => intro tick; rfl
  | succ fuel ih =>
    intro tick
    rcases hr : bootstrapPollOnce (world tick) with ⟨step, attempts⟩
    have hs := h tick
    rw [hr] at hs
    simp only at hs
    subst hs
    simp [bootstrapLoopAux, hr, ih]

/-- C2 counterexample: in a world where cluster creation succeeds from tick 1
and machine-set creation fails only at tick 1, the loop attempts the
cluster creation again at tick 2 although it succeeded at tick 1 (the
machine-set attempt at tick 1 proves the tick-1 cluster attempt succeeded):
the loop keeps no milestone flags, refuting the never-re-attempt claim. -/
theorem c2_milestones_counterexample :
    bootstrapLoop machineSetFlakyWorld 5
      = (LoopOutcome.success 2,
         [(1, Attempt.cluster), (1, Attempt.machineSet),
          (2, Attempt.cluster), (2, Attempt.machineSet)]) ∧
    ((bootstrapLoop machineSetFlakyWorld 5).2.map Prod.snd).count Attempt.cluster = 2 := by
  decide

/-- C2 amended: the loop keeps no milestone booleans across ticks - every
tick that performs any creation attempt re-attempts the cluster creation
first, even when it succeeded in an earlier tick, and the machine-set
creation is attempted only after the cluster creation succeeded within the
same tick. The final part of the claim stands: when the run succeeds at
tick `t`, the machine-set creation succeeded at `t` itself and no attempt
of any kind happens after tick `t`, so a machine-set creation that
succeeded is never retried. -/
theorem c2_milestones_amended (world : Nat → Operator) (fuel t : Nat)
    (tr : List (Nat × Attempt)) :
    (bootstrapLoop world fuel = (LoopOutcome.success t, tr) →
      (t, Attempt.machineSet) ∈ tr ∧ ∀ p ∈ tr, p.1 ≤ t) ∧
    (∀ optr : Operator,
      (bootstrapPollOnce optr).1 = PollStep.again ∨ (bootstrapPollOnce optr).1 = PollStep.done →
      (bootstrapPollOnce optr).2.head? = some Attempt.cluster) := by
  refine ⟨fun h => ?_, fun optr => bootstrapPollOnce_cluster_first optr⟩
  obtain ⟨_, h2, h3⟩ := bootstrapLoopAux_success_shape world fuel 1 t tr h
  exact ⟨h2, fun p hp => (h3 p hp).2⟩

/-- C2 witness: in the flaky world the run succeeds at tick 2, the successful
machine-set creation is the one at tick 2, and no attempt is tagged with a
later tick. -/
theorem c2_milestones_amended_witness :
    (2, Attempt.machineSet) ∈ (bootstrapLoop machineSetFlakyWorld 5).2 := by
  have hloop : bootstrapLoop machineSetFlakyWorld 5
      = (LoopOutcome.success 2,
         [(1, Attempt.cluster), (1, Attempt.machineSet),
          (2, Attempt.cluster), (2, Attempt.machineSet)]) := by
    decide
  have hmem := (c2_milestones_amended machineSetFlakyWorld 5 2
    [(1, Attempt.cluster), (1, Attempt.machineSet),
     (2, Attempt.cluster), (2, Attempt.machineSet)]).1 hloop
  rw [hloop]
  exact hmem.1

/-- `baseOperator` with a config-map store that always fails. -/
def configErrOperator : Operator :=
  { baseOperator with getConfigMap := fun _ _ => Except.error "boom" }

/-- `baseOperator` whose cluster-object creation always fails. -/
def clusterFailOperator : Operator :=
  { baseOperator with syncCluster := fun _ => some "cluster boom" }

/-- C5: within a poll tick, a configuration-resolution or image-detail
failure aborts the poll function at once with a wrapped hard error and no
creation attempt; a cluster-object or machine-set-object creation failure
only reports keep-polling, with no error propagated; and when no tick ever
reports done before the fuel (timeout) runs out, and likewise when a tick
reports a hard error, the loop ends in `glog.Fatalf`, halting the process. -/
theorem c5_bootstrap_error_policy (optr : Operator) (world : Nat → Operator) (fuel : Nat) :
    (∀ e, getOperatorConfig optr = Except.error e →
      bootstrapPollOnce optr
        = (PollStep.hardErr ("error decoding operator config: " ++ e), [])) ∧
    (∀ e cfg0, getOperatorConfig optr = Except.ok cfg0 →
      updateImageDetails optr cfg0 = Except.error e →
      bootstrapPollOnce optr
        = (PollStep.hardErr ("error getting image details: " ++ e), [])) ∧
    (∀ e cfg0 cfg, getOperatorConfig optr = Except.ok cfg0 →
      updateImageDetails optr cfg0 = Except.ok cfg →
      optr.syncCluster cfg = some e →
      bootstrapPollOnce optr = (PollStep.again, [Attempt.cluster])) ∧
    (∀ e cfg0 cfg, getOperatorConfig optr = Except.ok cfg0 →
      updateImageDetails optr cfg0 = Except.ok cfg →
      optr.syncCluster cfg = none →
      optr.syncMachineSets cfg = some e →
      bootstrapPollOnce optr = (PollStep.again, [Attempt.cluster, Attempt.machineSet])) ∧
    ((∀ t, (bootstrapPollOnce (world t)).1 = PollStep.again) →
      (bootstrapLoop world fuel).1 = LoopOutcome.fatal (deployFatalMsg timedOutMsg)) ∧
    (∀ e, 1 ≤ fuel → (bootstrapPollOnce (world 1)).1 = PollStep.hardErr e →
      (bootstrapLoop world fuel).1 = LoopOutcome.fatal (deployFatalMsg e)) := by
  refine ⟨fun e h1 => by simp [bootstrapPollOnce, h1],
    fun e cfg0 h1 h2 => by simp [bootstrapPollOnce, h1, h2],
    fun e cfg0 cfg h1 h2 h3 => by simp [bootstrapPollOnce, h1, h2, h3],
    fun e cfg0 cfg h1 h2 h3 h4 => by simp [bootstrapPollOnce, h1, h2, h3, h4],
    fun h => bootstrapLoopAux_timeout world h fuel 1,
    fun e hf h1 => ?_⟩
  cases fuel with
  | zero => omega
  | succ fuel =>
    rcases hr : bootstrapPollOnce (world 1) with ⟨step, attempts⟩
    rw [hr] at h1
    simp only at h1
    subst h1
    simp [bootstrapLoop, bootstrapLoopAux, hr]

/-- C5 witness: a failing config-map store aborts the poll tick with the
wrapped hard error and no creation attempt, and a world whose cluster
creation never succeeds times out into the fatal message. -/
theorem c5_bootstrap_error_policy_witness :
    bootstrapPollOnce configErrOperator
      = (PollStep.hardErr
          "error decoding operator config: could not find cluster-config-v1 namespace: boom",
         []) ∧
    (bootstrapLoop (fun _ => clusterFailOperator) 3).1
      = LoopOutcome.fatal (deployFatalMsg timedOutMsg) :=
  ⟨(c5_bootstrap_error_policy configErrOperator (fun _ => clusterFailOperator) 3).1
      "could not find cluster-config-v1 namespace: boom" rfl,
   (c5_bootstrap_error_policy configErrOperator (fun _ => clusterFailOperator) 3).2.2.2.2.1
      (fun _ => rfl)⟩

end MachineAPIOperator
